import Mathlib

/-!
Verification development for the decisively-io types-interview package, a
declarations-only TypeScript repository describing interview sessions and
form controls. The package content is the set of type shapes, two format
constant groups, and the runtime type guard isFileAttributeValue. This file
embeds those declarations shallowly: the guard is translated as an
executable function over a JSON-like value type, the control and session
shapes as Lean structures and inductives mirroring field-for-field the
TypeScript interfaces, and wire-level field presence as key-list functions
read off the interface declarations.
-/

namespace TypesInterview

/-! ## JS value model

The guard isFileAttributeValue receives a value of type unknown, so it is
embedded over a model of JSON-transportable JS values. Numbers are modelled
as integers, which is irrelevant to the properties below. Objects carry an
association list of fields; as produced by JSON the keys are distinct, and
field lookup returns the first binding.
-/

inductive TSValue where
  | null
  | undef
  | str (s : String)
  | num (n : Int)
  | bool (b : Bool)
  | arr (elems : List TSValue)
  | obj (fields : List (String × TSValue))

/-- JS property access for the keys the guard reads: a field of an object,
and undefined on an array or any other value (the guard only reads plain
data keys, never array methods or length). -/
def getField : TSValue → String → TSValue
  | .obj fields, k => go fields k
  | _, _ => .undef
where
  go : List (String × TSValue) → String → TSValue
    | [], _ => .undef
    | (k', v) :: rest, k => if k' = k then v else go rest k

/-- Character-list version of a leading-substring test, so that concrete
instances reduce inside the kernel. -/
def charsStartWith : List Char → List Char → Bool
  | _, [] => true
  | [], _ :: _ => false
  | c :: cs, p :: ps => c == p && charsStartWith cs ps

/-- s.indexOf of the literal data:id= equals 0 exactly when s starts with
that literal. -/
def strStartsWithDataId (s : String) : Bool :=
  charsStartWith s.data "data:id=".data

/-- JS strict equality of a value against the string literal file: true only
for the string file itself (src/unnamed/part_000 line 65, typed.type check). -/
def isFileTag : TSValue → Bool
  | .str s => s == "file"
  | _ => false

/-- The entry test of src/unnamed/part_000 line 66, the callback
it.indexOf of data:id= compared against 0, over an arbitrary runtime entry:
  - a string entry: indexOf equals 0 exactly when the string starts with
    the literal data:id=;
  - an array entry: Array.indexOf of the literal equals 0 exactly when the
    element at index 0 is the string data:id= itself (strict equality);
  - a number, boolean, null, undefined or plain-object entry has no indexOf
    method, so the call throws a TypeError, modelled as Except.error.
The result is true when the entry is malformed, i.e. indexOf differs from 0. -/
def fileEntryBad : TSValue → Except Unit Bool
  | .str s => .ok (!(strStartsWithDataId s))
  | .arr (.str s :: _) => .ok (!(s == "data:id="))
  | .arr _ => .ok true
  | _ => .error ()

/-- Array.prototype.some with a possibly-throwing callback: short-circuits
on the first true, propagates the first exception. -/
def jsSome (f : TSValue → Except Unit Bool) : List TSValue → Except Unit Bool
  | [] => .ok false
  | x :: xs => do
    let b ← f x
    if b then pure true else jsSome f xs

/-- The exported type guard (src/unnamed/part_000 lines 61-69):

  if typeof v is not object, or v is null, return false;
  if typed.type is not the string file, or typed.value is not an array,
  return false;
  if typed.value.some of (it.indexOf of data:id= differs from 0), return
  false; else return true.

typeof yields object exactly for null, plain objects and arrays; the null
case returns false first. Except.error models the one way the body can
throw: the entry callback applied to an entry with no indexOf method. -/
def isFileAttributeValue (v : TSValue) : Except Unit Bool :=
  match v with
  | .obj _ | .arr _ =>
    if !(isFileTag (getField v "type")) then .ok false
    else match getField v "value" with
      | .arr entries =>
        match jsSome fileEntryBad entries with
        | .error e => .error e
        | .ok b => .ok (!b)
      | _ => .ok false
  | _ => .ok false

/-- True when a value is a string. -/
def isStringValue : TSValue → Bool
  | .str _ => true
  | _ => false

/-- An entry that is a string and fails to start with data:id= is the only
thing this test rejects; non-string entries pass it vacuously. Stated from
the specification wording: an array in which every string entry starts with
the data:id= prefix. -/
def stringEntryStartsOk : TSValue → Bool
  | .str s => strStartsWithDataId s
  | _ => true

/-- The shape the specification describes for a recognized file attribute
value, stated from the specification wording, to be compared against the
guard: an object whose type field is the string file and whose value field
is an array in which every string entry starts with data:id=. -/
def fileClaimShape (v : TSValue) : Bool :=
  (match v with | .obj _ => true | _ => false) &&
  isFileTag (getField v "type") &&
  (match getField v "value" with
   | .arr entries => entries.all stringEntryStartsOk
   | _ => false)

/-- Domain restriction under which the guard cannot throw: whenever the
value field is an array, all of its entries are strings, as the declared
type string-array of FileAttributeValue.value promises. -/
def valueEntriesAllStrings (v : TSValue) : Bool :=
  match getField v "value" with
  | .arr entries => entries.all isStringValue
  | _ => true

/-! ## Format constants (src/unnamed/part_002 lines 214, 255-256, 301-302) -/

def DATE_FORMAT : String := "yyyy-MM-dd"

def TIME_FORMAT_24 : String := "HH:mm:ss"

def TIME_FORMAT_12 : String := "h:mm:ss a"

def DATE_TIME_FORMAT_24 : String := DATE_FORMAT ++ " " ++ TIME_FORMAT_24

def DATE_TIME_FORMAT_12 : String := DATE_FORMAT ++ " " ++ TIME_FORMAT_12

/-! ## Attribute and entity value model (src/unnamed/part_000)

AttributeValue is string, number, boolean, FileAttributeValue, or an array
of records of AttributeValue. EntityInstance carries the at-id key; its
Lean field is named atId because @ cannot appear in a Lean name.
-/

structure FileAttributeValue where
  value : List String

inductive AttributeValue where
  | str (s : String)
  | num (n : Int)
  | bool (b : Bool)
  | file (f : FileAttributeValue)
  | rows (rs : List (List (String × AttributeValue)))

structure EntityInstance where
  atId : String

/-- EntityValue is AttributeValues merged with EntityInstance: one
identified row of entity data. -/
structure EntityValue where
  atId : String
  values : List (String × AttributeValue)

/-- AttributeData of src/unnamed/part_000 lines 76-79. -/
structure AttributeData where
  type : String
  value : AttributeValue

/-! ## Condition model (src/unnamed/part_002 lines 591-603) -/

inductive ConditionType where
  | equals
  | not_equals
  | and
  | or
  | less_than
  | less_than_equals
  | greater_than
  | greater_than_equals
deriving DecidableEq, Repr

/-- The discriminant of a ConditionValue: the string value or the string
attribute. -/
inductive ConditionValueKind where
  | value
  | «attribute»
deriving DecidableEq, Repr

/-- A scalar a ConditionValue may carry: string, boolean or null. -/
inductive ConditionScalar where
  | str (s : String)
  | bool (b : Bool)
  | null
deriving DecidableEq, Repr

/-- ConditionValue: type tag plus the two optional fields; the outer Option
models field presence, the inner constructors include the null the
TypeScript union allows. -/
structure ConditionValue where
  type : ConditionValueKind
  value : Option ConditionScalar
  attributeId : Option (Option String)
deriving DecidableEq, Repr

/-- ConditionExpression: a condition type over elements that are each a
ConditionValue leaf or a nested expression. -/
inductive ConditionExpression where
  | mk : ConditionType → List (ConditionValue ⊕ ConditionExpression) → ConditionExpression

/-! ## Control model (src/unnamed/part_002)

Each TypeScript interface becomes a structure with exactly the declared
fields. The literal type tag of an interface is not stored; the union
constructor carries it. Optional fields become Option; fields typed as the
literal true (required, disabled and the like) become Bool, present exactly
when true. A value-or-null field becomes Option of an Option, the inner
none modelling null. BaseControl contributes id, an optional version and,
where the interface does not redeclare it, an optional attribute. The
keyword attribute is written in guillemets because it is reserved in Lean.
-/

inductive LabelDisplay where
  | automatic
  | separate
  | inline
deriving DecidableEq, Repr

structure BooleanControl where
  id : String
  version : Option Int
  label : Option String
  labelDisplay : Option LabelDisplay
  labelLength : Option Int
  required : Bool
  disabled : Bool
  default : Option Bool
  value : Option (Option Bool)
  «attribute» : String
  showExplanation : Option Bool

structure CurrencyControl where
  id : String
  version : Option Int
  label : Option String
  labelDisplay : Option LabelDisplay
  labelLength : Option Int
  required : Bool
  disabled : Bool
  default : Option Int
  «attribute» : String
  value : Option (Option Int)
  symbol : Option String
  min : Option Int
  max : Option Int
  showExplanation : Option Bool

/-- DateControlThreeVariantDate is a string in all three variants. -/
structure DateControl where
  id : String
  version : Option Int
  label : Option String
  labelDisplay : Option LabelDisplay
  labelLength : Option Int
  required : Bool
  disabled : Bool
  allowManual : Bool
  «attribute» : String
  value : Option (Option String)
  default : Option String
  min : Option String
  max : Option String
  showExplanation : Option Bool

structure TimeControl where
  id : String
  version : Option Int
  label : Option String
  labelDisplay : Option LabelDisplay
  labelLength : Option Int
  required : Bool
  disabled : Bool
  «attribute» : String
  value : Option (Option String)
  default : Option String
  min : Option String
  max : Option String
  amPmFormat : Bool
  minutes_increment : Option Int
  allowSeconds : Bool
  showExplanation : Option Bool

structure DateTimeControl where
  id : String
  version : Option Int
  label : Option String
  labelDisplay : Option LabelDisplay
  labelLength : Option Int
  required : Bool
  disabled : Bool
  «attribute» : String
  value : Option (Option String)
  default : Option String
  date_min : Option String
  date_max : Option String
  time_min : Option String
  time_max : Option String
  amPmFormat : Bool
  minutes_increment : Option Int
  showExplanation : Option Bool

/-- The Option interface of src/unnamed/part_002 lines 304-307, renamed
OptionItem to avoid the Lean Option; its value field is typed any. -/
structure OptionItem where
  label : Option String
  value : TSValue

structure OptionsControl where
  id : String
  version : Option Int
  asRadio : Bool
  label : Option String
  labelDisplay : Option LabelDisplay
  labelLength : Option Int
  required : Bool
  disabled : Bool
  value : Option (Option (String ⊕ Bool))
  default : Option (String ⊕ Bool)
  «attribute» : String
  options : Option (List OptionItem)
  allow_other : Bool
  enum_id : Option String
  showExplanation : Option Bool

structure FileControl where
  id : String
  version : Option Int
  label : Option String
  labelDisplay : Option LabelDisplay
  labelLength : Option Int
  required : Bool
  «attribute» : String
  max : Option Int
  file_type : Option String
  max_size : Option Int
  showExplanation : Option Bool

structure ImageControl where
  id : String
  version : Option Int
  «attribute» : Option String
  data : String

structure NumberOfInstancesControl (C : Type) where
  id : String
  version : Option Int
  «attribute» : Option String
  label : Option String
  labelDisplay : Option LabelDisplay
  labelLength : Option Int
  required : Bool
  default : Option (List EntityInstance)
  disabled : Bool
  value : Option (Option (List EntityInstance))
  template : Option (List C)
  entity : String
  min : Option Int
  max : Option Int

inductive TextVariation where
  | email
  | number
deriving DecidableEq, Repr

structure TextMulti where
  maxRows : Option Int
  minRows : Option Int

structure TextControl where
  id : String
  version : Option Int
  label : Option String
  labelDisplay : Option LabelDisplay
  labelLength : Option Int
  required : Bool
  disabled : Bool
  default : Option String
  «attribute» : String
  value : Option (Option String)
  max : Option Int
  variation : Option TextVariation
  multi : Option TextMulti
  showExplanation : Option Bool

inductive TypographyStyle where
  | h1
  | h2
  | h3
  | h4
  | h5
  | h6
  | subtitle1
  | subtitle2
  | body1
  | body2
  | caption
  | banner_green
  | banner_yellow
  | banner_red
deriving DecidableEq, Repr

structure TypographyControl where
  id : String
  version : Option Int
  «attribute» : Option String
  text : String
  style : TypographyStyle
  emoji : Option String
  columnHeading : Option String
  columnWidth : Option Int

inductive EntityDisplay where
  | horizontal
  | vertical
deriving DecidableEq, Repr

structure EntityControl (C : Type) where
  id : String
  version : Option Int
  «attribute» : Option String
  label : Option String
  labelDisplay : Option LabelDisplay
  labelLength : Option Int
  entity : String
  display : Option EntityDisplay
  template : List C
  value : Option (List EntityValue)
  min : Option Int
  max : Option Int
  showExplanation : Option Bool
  entityId : Option String

inductive RepeatingDisplay where
  | list
  | table
deriving DecidableEq, Repr

structure RepeatingContainerControl (C : Type) where
  id : String
  version : Option Int
  «attribute» : Option String
  entity : String
  display : Option RepeatingDisplay
  filter : Option (Option String)
  sort : Option (Option String)
  showBorders : Option Bool
  showHeaders : Option Bool
  isFirst : Option Bool
  isLast : Option Bool
  controls : List C

structure CertaintyContainerControl (C : Type) where
  id : String
  version : Option Int
  «attribute» : String
  certain : List C
  uncertain : List C
  columnHeading : Option String
  columnWidth : Option Int

inductive SwitchKind where
  | dynamic
  | static
deriving DecidableEq, Repr

structure SwitchContainerControl (C : Type) where
  id : String
  version : Option Int
  «attribute» : Option String
  outcome_true : List C
  outcome_false : List C
  condition : Option ConditionExpression
  kind : Option SwitchKind
  columnHeading : Option String
  columnWidth : Option Int

/-- The design-time Control union of src/unnamed/part_002 lines 629-630:
fifteen members, the containers nesting design-time controls. -/
inductive Control where
  | boolean : BooleanControl → Control
  | currency : CurrencyControl → Control
  | date : DateControl → Control
  | time : TimeControl → Control
  | datetime : DateTimeControl → Control
  | options : OptionsControl → Control
  | file : FileControl → Control
  | image : ImageControl → Control
  | number_of_instances : NumberOfInstancesControl Control → Control
  | text : TextControl → Control
  | typography : TypographyControl → Control
  | entity : EntityControl Control → Control
  | repeating_container : RepeatingContainerControl Control → Control
  | certainty_container : CertaintyContainerControl Control → Control
  | switch_container : SwitchContainerControl Control → Control

/-- One hydrated instance row of a renderable entity control
(src/unnamed/part_002 lines 570-573), parametrized so the nested control
list can refer to the renderable family. -/
structure EntityControlInstance (C : Type) where
  id : String
  controls : List C

/-- The branch the hydrated certainty container reports. -/
inductive CertaintyBranch where
  | certain
  | uncertain
deriving DecidableEq, Repr

/-- The branch the hydrated switch container reports: the strings true and
false. -/
inductive SwitchBranch where
  | isTrue
  | isFalse
deriving DecidableEq, Repr

/-- The hydrated RenderableControl union of src/unnamed/part_002 lines
607-627. The TypeScript type intersects the member union with the optional
loading and dynamicAttributes fields; the intersection distributes over the
union, so each constructor carries those two fields after the member data.
The entity member adds instances, the certainty and switch containers add
branch, and every nested control is itself renderable. -/
inductive RenderableControl where
  | boolean : BooleanControl → Option Bool → Option (List String) → RenderableControl
  | currency : CurrencyControl → Option Bool → Option (List String) → RenderableControl
  | date : DateControl → Option Bool → Option (List String) → RenderableControl
  | time : TimeControl → Option Bool → Option (List String) → RenderableControl
  | datetime : DateTimeControl → Option Bool → Option (List String) → RenderableControl
  | options : OptionsControl → Option Bool → Option (List String) → RenderableControl
  | file : FileControl → Option Bool → Option (List String) → RenderableControl
  | image : ImageControl → Option Bool → Option (List String) → RenderableControl
  | number_of_instances : NumberOfInstancesControl RenderableControl →
      Option Bool → Option (List String) → RenderableControl
  | text : TextControl → Option Bool → Option (List String) → RenderableControl
  | typography : TypographyControl → Option Bool → Option (List String) → RenderableControl
  | entity : EntityControl RenderableControl → List (EntityControlInstance RenderableControl) →
      Option Bool → Option (List String) → RenderableControl
  | repeating_container : RepeatingContainerControl RenderableControl →
      Option Bool → Option (List String) → RenderableControl
  | certainty_container : CertaintyContainerControl RenderableControl → Option CertaintyBranch →
      Option Bool → Option (List String) → RenderableControl
  | switch_container : SwitchContainerControl RenderableControl → Option SwitchBranch →
      Option Bool → Option (List String) → RenderableControl

/-! ## Discriminant tags -/

/-- The type tag a design-time Control value carries on the wire. -/
def controlTypeTag : Control → String
  | .boolean _ => "boolean"
  | .currency _ => "currency"
  | .date _ => "date"
  | .time _ => "time"
  | .datetime _ => "datetime"
  | .options _ => "options"
  | .file _ => "file"
  | .image _ => "image"
  | .number_of_instances _ => "number_of_instances"
  | .text _ => "text"
  | .typography _ => "typography"
  | .entity _ => "entity"
  | .repeating_container _ => "repeating_container"
  | .certainty_container _ => "certainty_container"
  | .switch_container _ => "switch_container"

/-- The type tag a RenderableControl value carries on the wire. -/
def renderableControlTypeTag : RenderableControl → String
  | .boolean _ _ _ => "boolean"
  | .currency _ _ _ => "currency"
  | .date _ _ _ => "date"
  | .time _ _ _ => "time"
  | .datetime _ _ _ => "datetime"
  | .options _ _ _ => "options"
  | .file _ _ _ => "file"
  | .image _ _ _ => "image"
  | .number_of_instances _ _ _ => "number_of_instances"
  | .text _ _ _ => "text"
  | .typography _ _ _ => "typography"
  | .entity _ _ _ _ => "entity"
  | .repeating_container _ _ _ => "repeating_container"
  | .certainty_container _ _ _ _ => "certainty_container"
  | .switch_container _ _ _ _ => "switch_container"

/-- The tags of the Control union members, in union order
(src/unnamed/part_002 line 629). -/
def controlTags : List String :=
  ["boolean", "currency", "date", "time", "datetime", "options", "file", "image",
   "number_of_instances", "text", "typography", "entity", "repeating_container",
   "certainty_container", "switch_container"]

/-! ## Wire keys

For each interface, the list of JSON keys a value of that shape carries: the
required fields always, an optional field exactly when set. These lists are
read off the interface declarations and state which fields can appear at
all on a member of each family.
-/

/-- The key of an optional field, present exactly when the field is set. -/
def optKey (k : String) : Option α → List String
  | none => []
  | some _ => [k]

/-- The key of a field typed as the literal true, present exactly when the
flag is set. -/
def flagKey (k : String) : Bool → List String
  | false => []
  | true => [k]

def booleanControlKeys (c : BooleanControl) : List String :=
  ["id", "type"] ++ optKey "version" c.version ++ optKey "label" c.label ++
    optKey "labelDisplay" c.labelDisplay ++ optKey "labelLength" c.labelLength ++
    flagKey "required" c.required ++ flagKey "disabled" c.disabled ++
    optKey "default" c.default ++ optKey "value" c.value ++ ["attribute"] ++
    optKey "showExplanation" c.showExplanation

def currencyControlKeys (c : CurrencyControl) : List String :=
  ["id", "type"] ++ optKey "version" c.version ++ optKey "label" c.label ++
    optKey "labelDisplay" c.labelDisplay ++ optKey "labelLength" c.labelLength ++
    flagKey "required" c.required ++ flagKey "disabled" c.disabled ++
    optKey "default" c.default ++ ["attribute"] ++ optKey "value" c.value ++
    optKey "symbol" c.symbol ++ optKey "min" c.min ++ optKey "max" c.max ++
    optKey "showExplanation" c.showExplanation

def dateControlKeys (c : DateControl) : List String :=
  ["id", "type"] ++ optKey "version" c.version ++ optKey "label" c.label ++
    optKey "labelDisplay" c.labelDisplay ++ optKey "labelLength" c.labelLength ++
    flagKey "required" c.required ++ flagKey "disabled" c.disabled ++
    flagKey "allowManual" c.allowManual ++ ["attribute"] ++ optKey "value" c.value ++
    optKey "default" c.default ++ optKey "min" c.min ++ optKey "max" c.max ++
    optKey "showExplanation" c.showExplanation

def timeControlKeys (c : TimeControl) : List String :=
  ["id", "type"] ++ optKey "version" c.version ++ optKey "label" c.label ++
    optKey "labelDisplay" c.labelDisplay ++ optKey "labelLength" c.labelLength ++
    flagKey "required" c.required ++ flagKey "disabled" c.disabled ++ ["attribute"] ++
    optKey "value" c.value ++ optKey "default" c.default ++ optKey "min" c.min ++
    optKey "max" c.max ++ flagKey "amPmFormat" c.amPmFormat ++
    optKey "minutes_increment" c.minutes_increment ++ flagKey "allowSeconds" c.allowSeconds ++
    optKey "showExplanation" c.showExplanation

def dateTimeControlKeys (c : DateTimeControl) : List String :=
  ["id", "type"] ++ optKey "version" c.version ++ optKey "label" c.label ++
    optKey "labelDisplay" c.labelDisplay ++ optKey "labelLength" c.labelLength ++
    flagKey "required" c.required ++ flagKey "disabled" c.disabled ++ ["attribute"] ++
    optKey "value" c.value ++ optKey "default" c.default ++ optKey "date_min" c.date_min ++
    optKey "date_max" c.date_max ++ optKey "time_min" c.time_min ++
    optKey "time_max" c.time_max ++ flagKey "amPmFormat" c.amPmFormat ++
    optKey "minutes_increment" c.minutes_increment ++
    optKey "showExplanation" c.showExplanation

def optionsControlKeys (c : OptionsControl) : List String :=
  ["id", "type"] ++ optKey "version" c.version ++ flagKey "asRadio" c.asRadio ++
    optKey "label" c.label ++ optKey "labelDisplay" c.labelDisplay ++
    optKey "labelLength" c.labelLength ++ flagKey "required" c.required ++
    flagKey "disabled" c.disabled ++ optKey "value" c.value ++ optKey "default" c.default ++
    ["attribute"] ++ optKey "options" c.options ++ flagKey "allow_other" c.allow_other ++
    optKey "enum_id" c.enum_id ++ optKey "showExplanation" c.showExplanation

def fileControlKeys (c : FileControl) : List String :=
  ["id", "type"] ++ optKey "version" c.version ++ optKey "label" c.label ++
    optKey "labelDisplay" c.labelDisplay ++ optKey "labelLength" c.labelLength ++
    flagKey "required" c.required ++ ["attribute"] ++ optKey "max" c.max ++
    optKey "file_type" c.file_type ++ optKey "max_size" c.max_size ++
    optKey "showExplanation" c.showExplanation

def imageControlKeys (c : ImageControl) : List String :=
  ["id", "type"] ++ optKey "version" c.version ++ optKey "attribute" c.«attribute» ++ ["data"]

def numberOfInstancesControlKeys (c : NumberOfInstancesControl C) : List String :=
  ["id", "type"] ++ optKey "version" c.version ++ optKey "attribute" c.«attribute» ++
    optKey "label" c.label ++ optKey "labelDisplay" c.labelDisplay ++
    optKey "labelLength" c.labelLength ++ flagKey "required" c.required ++
    optKey "default" c.default ++ flagKey "disabled" c.disabled ++ optKey "value" c.value ++
    optKey "template" c.template ++ ["entity"] ++ optKey "min" c.min ++ optKey "max" c.max

def textControlKeys (c : TextControl) : List String :=
  ["id", "type"] ++ optKey "version" c.version ++ optKey "label" c.label ++
    optKey "labelDisplay" c.labelDisplay ++ optKey "labelLength" c.labelLength ++
    flagKey "required" c.required ++ flagKey "disabled" c.disabled ++
    optKey "default" c.default ++ ["attribute"] ++ optKey "value" c.value ++
    optKey "max" c.max ++ optKey "variation" c.variation ++ optKey "multi" c.multi ++
    optKey "showExplanation" c.showExplanation

def typographyControlKeys (c : TypographyControl) : List String :=
  ["id", "type"] ++ optKey "version" c.version ++ optKey "attribute" c.«attribute» ++
    ["text", "style"] ++ optKey "emoji" c.emoji ++ optKey "columnHeading" c.columnHeading ++
    optKey "columnWidth" c.columnWidth

def entityControlKeys (c : EntityControl C) : List String :=
  ["id", "type"] ++ optKey "version" c.version ++ optKey "attribute" c.«attribute» ++
    optKey "label" c.label ++ optKey "labelDisplay" c.labelDisplay ++
    optKey "labelLength" c.labelLength ++ ["entity"] ++ optKey "display" c.display ++
    ["template"] ++ optKey "value" c.value ++ optKey "min" c.min ++ optKey "max" c.max ++
    optKey "showExplanation" c.showExplanation ++ optKey "entityId" c.entityId

def repeatingContainerControlKeys (c : RepeatingContainerControl C) : List String :=
  ["id", "type"] ++ optKey "version" c.version ++ optKey "attribute" c.«attribute» ++
    ["entity"] ++ optKey "display" c.display ++ optKey "filter" c.filter ++
    optKey "sort" c.sort ++ optKey "showBorders" c.showBorders ++
    optKey "showHeaders" c.showHeaders ++ optKey "isFirst" c.isFirst ++
    optKey "isLast" c.isLast ++ ["controls"]

def certaintyContainerControlKeys (c : CertaintyContainerControl C) : List String :=
  ["id", "type"] ++ optKey "version" c.version ++ ["attribute", "certain", "uncertain"] ++
    optKey "columnHeading" c.columnHeading ++ optKey "columnWidth" c.columnWidth

def switchContainerControlKeys (c : SwitchContainerControl C) : List String :=
  ["id", "type"] ++ optKey "version" c.version ++ optKey "attribute" c.«attribute» ++
    ["outcome_true", "outcome_false"] ++ optKey "condition" c.condition ++
    optKey "kind" c.kind ++ optKey "columnHeading" c.columnHeading ++
    optKey "columnWidth" c.columnWidth

/-- The keys a design-time Control value carries on the wire. -/
def controlKeys : Control → List String
  | .boolean c => booleanControlKeys c
  | .currency c => currencyControlKeys c
  | .date c => dateControlKeys c
  | .time c => timeControlKeys c
  | .datetime c => dateTimeControlKeys c
  | .options c => optionsControlKeys c
  | .file c => fileControlKeys c
  | .image c => imageControlKeys c
  | .number_of_instances c => numberOfInstancesControlKeys c
  | .text c => textControlKeys c
  | .typography c => typographyControlKeys c
  | .entity c => entityControlKeys c
  | .repeating_container c => repeatingContainerControlKeys c
  | .certainty_container c => certaintyContainerControlKeys c
  | .switch_container c => switchContainerControlKeys c

/-- The keys a hydrated RenderableControl value carries on the wire: the
keys of the member shape, then instances on the entity member, branch when
the certainty or switch container reports one, and the loading and
dynamicAttributes keys the intersection type adds when those fields are
set. -/
def renderableControlKeys : RenderableControl → List String
  | .boolean c l d => booleanControlKeys c ++ optKey "loading" l ++ optKey "dynamicAttributes" d
  | .currency c l d => currencyControlKeys c ++ optKey "loading" l ++ optKey "dynamicAttributes" d
  | .date c l d => dateControlKeys c ++ optKey "loading" l ++ optKey "dynamicAttributes" d
  | .time c l d => timeControlKeys c ++ optKey "loading" l ++ optKey "dynamicAttributes" d
  | .datetime c l d => dateTimeControlKeys c ++ optKey "loading" l ++ optKey "dynamicAttributes" d
  | .options c l d => optionsControlKeys c ++ optKey "loading" l ++ optKey "dynamicAttributes" d
  | .file c l d => fileControlKeys c ++ optKey "loading" l ++ optKey "dynamicAttributes" d
  | .image c l d => imageControlKeys c ++ optKey "loading" l ++ optKey "dynamicAttributes" d
  | .number_of_instances c l d =>
      numberOfInstancesControlKeys c ++ optKey "loading" l ++ optKey "dynamicAttributes" d
  | .text c l d => textControlKeys c ++ optKey "loading" l ++ optKey "dynamicAttributes" d
  | .typography c l d => typographyControlKeys c ++ optKey "loading" l ++ optKey "dynamicAttributes" d
  | .entity c _ l d =>
      entityControlKeys c ++ ["instances"] ++ optKey "loading" l ++ optKey "dynamicAttributes" d
  | .repeating_container c l d =>
      repeatingContainerControlKeys c ++ optKey "loading" l ++ optKey "dynamicAttributes" d
  | .certainty_container c b l d =>
      certaintyContainerControlKeys c ++ optKey "branch" b ++ optKey "loading" l ++
        optKey "dynamicAttributes" d
  | .switch_container c b l d =>
      switchContainerControlKeys c ++ optKey "branch" b ++ optKey "loading" l ++
        optKey "dynamicAttributes" d

/-! ## Session model (src/unnamed/part_000 lines 106-184) -/

/-- Context: where in the entity graph a screen lives. -/
structure Context where
  entity : String
  id : Option String
  parent : Option String
deriving DecidableEq, Repr

/-- A State entry for one dynamic attribute; value is typed any. -/
structure StateEntry where
  id : String
  type : String
  dependencies : Option (List String)
  value : Option TSValue
  instanceTemplate : Option String

/-- Step: the recursive navigation tree node, with an optional array of
sub-steps. -/
inductive Step where
  | mk (id : String) (title : String) (context : Context) (current : Bool) (complete : Bool)
      (visited : Bool) (skipped : Bool) (visitable : Bool) (steps : Option (List Step))

def Step.current : Step → Bool
  | .mk _ _ _ c _ _ _ _ _ => c

def Step.steps : Step → Option (List Step)
  | .mk _ _ _ _ _ _ _ _ st => st

structure Screen where
  title : String
  id : String
  controls : List RenderableControl

structure Progress where
  time : Int
  percentage : Int

inductive SessionStatus where
  | in_progress
  | complete
  | error
deriving DecidableEq, Repr

/-- Session: the aggregate the engine returns. Its data field is a record
of AttributeData merged with the Parent shape; the record part and the
at-parent key are the two Lean fields data and dataParent. -/
structure Session where
  sessionId : String
  status : SessionStatus
  context : Context
  data : List (String × AttributeData)
  dataParent : Option String
  state : Option (List StateEntry)
  steps : List Step
  screen : Screen
  progress : Option Progress
  renderAt : Option Int
  explanations : Option (List (String × String))
  locale : Option String

/-! ## Step-tree traversal -/

mutual
/-- The flattened step tree rooted at one step: the step followed by the
flattening of every nested steps array, at any depth. -/
def flattenStep : Step → List Step
  | .mk i t cx c co v sk vi none => [.mk i t cx c co v sk vi none]
  | .mk i t cx c co v sk vi (some l) => .mk i t cx c co v sk vi (some l) :: flattenSteps l

/-- The flattening of a steps array. -/
def flattenSteps : List Step → List Step
  | [] => []
  | s :: r => flattenStep s ++ flattenSteps r
end

mutual
/-- How many steps of the tree rooted at one step are marked current. -/
def countCurrentStep : Step → Nat
  | .mk _ _ _ c _ _ _ _ none => if c then 1 else 0
  | .mk _ _ _ c _ _ _ _ (some l) => (if c then 1 else 0) + countCurrentSteps l

/-- How many steps of a steps array, including all nesting, are marked
current. -/
def countCurrentSteps : List Step → Nat
  | [] => 0
  | s :: r => countCurrentStep s + countCurrentSteps r
end

/-! ## Engine invariants, modelled

The repository declares only the shapes; the interview engine that
produces Sessions lives outside it. The invariants its documentation
states for produced values are modelled here as executable validators.
-/

/-- Modelled from the spec: the engine marks exactly one step of the whole
tree current at any time (the Step documentation and the session validator
the specification describes); the repository itself ships no code
enforcing this. -/
def sessionHasUniqueCurrent (s : Session) : Bool :=
  countCurrentSteps s.steps == 1

/-- Modelled from the spec: the id field of a Context only appears when the
entity is not global (the Context documentation); the repository itself
ships no code enforcing this. -/
def contextIdAbsentWhenGlobal (c : Context) : Bool :=
  !(c.entity == "global" && c.id.isSome)

/-- Exactly one of the value and attributeId fields of a ConditionValue is
present: value set and attributeId absent, or the other way round. -/
def conditionValueExactlyOne (cv : ConditionValue) : Bool :=
  (cv.value.isSome && cv.attributeId.isNone) || (cv.value.isNone && cv.attributeId.isSome)

mutual
/-- Modelled from the spec: a well-formed ConditionExpression is one whose
every ConditionValue node, at any depth, carries exactly one of
value/attributeId; the repository itself ships no code enforcing this. -/
def conditionExpressionWellFormed : ConditionExpression → Bool
  | .mk _ elems => conditionElementsWellFormed elems

/-- The element-list part of conditionExpressionWellFormed. -/
def conditionElementsWellFormed : List (ConditionValue ⊕ ConditionExpression) → Bool
  | [] => true
  | .inl cv :: rest => conditionValueExactlyOne cv && conditionElementsWellFormed rest
  | .inr e :: rest => conditionExpressionWellFormed e && conditionElementsWellFormed rest
end

mutual
/-- Every ConditionValue node of an expression, at any depth, in order. -/
def conditionExpressionValues : ConditionExpression → List ConditionValue
  | .mk _ elems => conditionElementsValues elems

/-- The element-list part of conditionExpressionValues. -/
def conditionElementsValues : List (ConditionValue ⊕ ConditionExpression) → List ConditionValue
  | [] => []
  | .inl cv :: rest => cv :: conditionElementsValues rest
  | .inr e :: rest => conditionExpressionValues e ++ conditionElementsValues rest
end

/-! ## Concrete sample values -/

def sampleBooleanControl : BooleanControl :=
  { id := "c-boolean", version := none, label := none, labelDisplay := none,
    labelLength := none, required := false, disabled := false, default := none,
    value := none, «attribute» := "a-boolean", showExplanation := none }

def sampleCurrencyControl : CurrencyControl :=
  { id := "c-currency", version := none, label := none, labelDisplay := none,
    labelLength := none, required := false, disabled := false, default := none,
    «attribute» := "a-currency", value := none, symbol := none, min := none,
    max := none, showExplanation := none }

def sampleDateControl : DateControl :=
  { id := "c-date", version := none, label := none, labelDisplay := none,
    labelLength := none, required := false, disabled := false, allowManual := false,
    «attribute» := "a-date", value := none, default := none, min := none,
    max := none, showExplanation := none }

def sampleTimeControl : TimeControl :=
  { id := "c-time", version := none, label := none, labelDisplay := none,
    labelLength := none, required := false, disabled := false, «attribute» := "a-time",
    value := none, default := none, min := none, max := none, amPmFormat := false,
    minutes_increment := none, allowSeconds := false, showExplanation := none }

def sampleDateTimeControl : DateTimeControl :=
  { id := "c-datetime", version := none, label := none, labelDisplay := none,
    labelLength := none, required := false, disabled := false, «attribute» := "a-datetime",
    value := none, default := none, date_min := none, date_max := none, time_min := none,
    time_max := none, amPmFormat := false, minutes_increment := none,
    showExplanation := none }

def sampleOptionsControl : OptionsControl :=
  { id := "c-options", version := none, asRadio := false, label := none,
    labelDisplay := none, labelLength := none, required := false, disabled := false,
    value := none, default := none, «attribute» := "a-options", options := none,
    allow_other := false, enum_id := none, showExplanation := none }

def sampleFileControl : FileControl :=
  { id := "c-file", version := none, label := none, labelDisplay := none,
    labelLength := none, required := false, «attribute» := "a-file", max := none,
    file_type := none, max_size := none, showExplanation := none }

def sampleImageControl : ImageControl :=
  { id := "c-image", version := none, «attribute» := none, data := "data-uri" }

def sampleNumberOfInstancesControl : NumberOfInstancesControl Control :=
  { id := "c-noi", version := none, «attribute» := none, label := none,
    labelDisplay := none, labelLength := none, required := false, default := none,
    disabled := false, value := none, template := none, entity := "member",
    min := none, max := none }

def sampleTextControl : TextControl :=
  { id := "c-text", version := none, label := none, labelDisplay := none,
    labelLength := none, required := false, disabled := false, default := none,
    «attribute» := "a-text", value := none, max := none, variation := none,
    multi := none, showExplanation := none }

def sampleTypographyControl : TypographyControl :=
  { id := "c-typography", version := none, «attribute» := none, text := "hello",
    style := .body1, emoji := none, columnHeading := none, columnWidth := none }

def sampleEntityControl : EntityControl Control :=
  { id := "c-entity", version := none, «attribute» := none, label := none,
    labelDisplay := none, labelLength := none, entity := "member", display := none,
    template := [], value := none, min := none, max := none, showExplanation := none,
    entityId := none }

def sampleRepeatingContainerControl : RepeatingContainerControl Control :=
  { id := "c-repeating", version := none, «attribute» := none, entity := "member",
    display := none, filter := none, sort := none, showBorders := none,
    showHeaders := none, isFirst := none, isLast := none, controls := [] }

def sampleCertaintyContainerControl : CertaintyContainerControl Control :=
  { id := "c-certainty", version := none, «attribute» := "a-certainty", certain := [],
    uncertain := [], columnHeading := none, columnWidth := none }

def sampleSwitchContainerControl : SwitchContainerControl Control :=
  { id := "c-switch", version := none, «attribute» := none, outcome_true := [],
    outcome_false := [], condition := none, kind := none, columnHeading := none,
    columnWidth := none }

/-- An options control carrying the design-time-only enum_id field. -/
def enumIdOptionsControl : OptionsControl :=
  { sampleOptionsControl with enum_id := some "6bbf79d2" }

/-- A design-time repeating container whose runtime-computed flags are both
set: the interface itself declares isFirst and isLast as optional fields. -/
def flaggedRepeatingContainerControl : RepeatingContainerControl Control :=
  { sampleRepeatingContainerControl with isFirst := some true, isLast := some false }

/-- A candidate file value whose value array holds the number 5: the entry
callback calls indexOf on a number, which throws. -/
def throwingFileCandidate : TSValue :=
  .obj [("type", .str "file"), ("value", .arr [.num 5])]

/-- The malformed-entry example of the specification: the right tag, a good
first entry, and the bogus second entry. -/
def bogusEntryFileCandidate : TSValue :=
  .obj [("type", .str "file"), ("value", .arr [.str "data:id=abc;base64,x", .str "bogus"])]

def globalContext : Context := { entity := "global", id := none, parent := none }

def sampleStepLeafCurrent : Step :=
  .mk "step-2" "Two" globalContext true false false false true none

def sampleStepRoot : Step :=
  .mk "step-1" "One" globalContext false false true false true (some [sampleStepLeafCurrent])

def sampleStepOther : Step :=
  .mk "step-3" "Three" globalContext false false false false true none

/-- A session whose step tree has exactly one current step, nested one
level down. -/
def sampleSession : Session :=
  { sessionId := "s-1", status := .in_progress, context := globalContext, data := [],
    dataParent := none, state := none, steps := [sampleStepRoot, sampleStepOther],
    screen := { title := "Two", id := "screen-2", controls := [] }, progress := none,
    renderAt := none, explanations := none, locale := none }

/-- The nested expression example of the specification: an and of one
equals comparison between an attribute reference and the value true. -/
def sampleConditionExpression : ConditionExpression :=
  .mk .and
    [.inr (.mk .equals
      [.inl { type := .«attribute», value := none, attributeId := some (some "a") },
       .inl { type := .value, value := some (.bool true), attributeId := none }])]

/-! ## Helper lemmas -/

theorem mem_optKey_iff {x k : String} {o : Option α} :
    x ∈ optKey k o ↔ (x = k ∧ o.isSome = true) := by
  cases o <;> simp [optKey]

theorem mem_flagKey_iff {x k : String} {b : Bool} :
    x ∈ flagKey k b ↔ (x = k ∧ b = true) := by
  cases b <;> simp [flagKey]

/-- Over an all-string entry array the some-callback never throws, and
reports a malformed entry exactly when some string entry fails the
data:id= test. -/
theorem jsSome_fileEntryBad_of_strings (entries : List TSValue)
    (h : entries.all isStringValue = true) :
    jsSome fileEntryBad entries = .ok (!(entries.all stringEntryStartsOk)) := by
  induction entries with
  | nil => rfl
  | cons e rest ih =>
    simp only [List.all_cons, Bool.and_eq_true] at h
    cases e with
    | str s =>
      cases hp : strStartsWithDataId s
      · simp [jsSome, fileEntryBad, hp, List.all_cons, stringEntryStartsOk,
          Bind.bind, Except.bind, Pure.pure, Except.pure]
      · simp [jsSome, fileEntryBad, hp, List.all_cons, stringEntryStartsOk, ih h.2,
          Bind.bind, Except.bind, Pure.pure, Except.pure]
    | null => simp [isStringValue] at h
    | undef => simp [isStringValue] at h
    | num n => simp [isStringValue] at h
    | bool b => simp [isStringValue] at h
    | arr elems => simp [isStringValue] at h
    | obj fields => simp [isStringValue] at h

/-! ## Claims -/

/-- C1 counterexample: at the candidate with the right tag and the number 5
as sole entry, the guard throws a TypeError (the entry has no indexOf
method) and so does not return true, while the shape the claim states,
with no string entry to restrict, holds vacuously; the stated equivalence
fails at this input. -/
theorem c1_counterexample :
    ¬ ((isFileAttributeValue throwingFileCandidate = .ok true) ↔
        fileClaimShape throwingFileCandidate = true) := by
  intro hiff
  have h2 : (Except.error () : Except Unit Bool) = .ok true := hiff.mpr rfl
  exact Except.noConfusion h2

/-- C1 (amended to candidates whose value array holds only strings, as the
declared string-array type of FileAttributeValue.value promises): the guard
returns true exactly when the candidate is an object whose type field is
the string file and whose value field is an array in which every entry
starts with data:id=; in particular the malformed-entry example yields
false. -/
theorem c1_file_guard_matches_shape (v : TSValue)
    (h : valueEntriesAllStrings v = true) :
    (isFileAttributeValue v = .ok true) ↔ fileClaimShape v = true := by
  cases v with
  | obj fields =>
    rw [valueEntriesAllStrings] at h
    cases htag : isFileTag (getField (TSValue.obj fields) "type") with
    | false => simp [isFileAttributeValue, fileClaimShape, htag]
    | true =>
      rcases hv : getField (TSValue.obj fields) "value" with _ | _ | s | n | b | entries | flds
      case arr =>
        rw [hv] at h
        simp [isFileAttributeValue, fileClaimShape, htag, hv,
          jsSome_fileEntryBad_of_strings entries h]
      all_goals simp [isFileAttributeValue, fileClaimShape, htag, hv]
  | arr elems => simp [isFileAttributeValue, fileClaimShape, isFileTag, getField]
  | null => simp [isFileAttributeValue, fileClaimShape]
  | undef => simp [isFileAttributeValue, fileClaimShape]
  | str s => simp [isFileAttributeValue, fileClaimShape]
  | num n => simp [isFileAttributeValue, fileClaimShape]
  | bool b => simp [isFileAttributeValue, fileClaimShape]

/-- C1 witness: the malformed-entry example of the specification is in the
amended domain, and the equivalence holds there (both sides false: the
guard rejects the bogus entry). -/
theorem c1_witness :
    valueEntriesAllStrings bogusEntryFileCandidate = true ∧
      ((isFileAttributeValue bogusEntryFileCandidate = .ok true) ↔
        fileClaimShape bogusEntryFileCandidate = true) :=
  ⟨rfl, c1_file_guard_matches_shape bogusEntryFileCandidate rfl⟩

/-- C6: for every Context satisfying the documented invariant that id only
appears off the global entity, entity equal to global implies the id field
is absent. -/
theorem c6_global_context_has_no_id (c : Context)
    (h : contextIdAbsentWhenGlobal c = true) : c.entity = "global" → c.id = none := by
  intro hg
  cases hid : c.id with
  | none => rfl
  | some x =>
    rw [contextIdAbsentWhenGlobal, hg, hid] at h
    simp at h

/-- C6 witness: the global context with no id satisfies the invariant and
the conclusion. -/
theorem c6_witness :
    contextIdAbsentWhenGlobal globalContext = true ∧
      (globalContext.entity = "global" → globalContext.id = none) :=
  ⟨rfl, c6_global_context_has_no_id globalContext rfl⟩

/-- C8: the exported format constants are bit-exact: DATE_FORMAT is
yyyy-MM-dd, TIME_FORMAT_24 is HH:mm:ss, TIME_FORMAT_12 is h:mm:ss a,
DATE_TIME_FORMAT_24 is yyyy-MM-dd HH:mm:ss, DATE_TIME_FORMAT_12 is
yyyy-MM-dd h:mm:ss a, and each datetime constant is the date format and
the matching time format joined by one space. -/
theorem c8_format_constants :
    DATE_FORMAT = "yyyy-MM-dd" ∧ TIME_FORMAT_24 = "HH:mm:ss" ∧
      TIME_FORMAT_12 = "h:mm:ss a" ∧ DATE_TIME_FORMAT_24 = "yyyy-MM-dd HH:mm:ss" ∧
      DATE_TIME_FORMAT_12 = "yyyy-MM-dd h:mm:ss a" ∧
      DATE_TIME_FORMAT_24 = DATE_FORMAT ++ " " ++ TIME_FORMAT_24 ∧
      DATE_TIME_FORMAT_12 = DATE_FORMAT ++ " " ++ TIME_FORMAT_12 :=
  ⟨rfl, rfl, rfl, by decide, by decide, rfl, rfl⟩

/-- C9: the guard recognizes an object with the file tag and an empty value
array: the every-entry test is vacuously satisfied. -/
theorem c9_empty_file_value :
    isFileAttributeValue (.obj [("type", .str "file"), ("value", .arr [])]) = .ok true := rfl

/-- C10: on null, undefined, or any string, number or boolean input the
guard returns false without throwing: the typeof-or-null test rejects the
input before any property is read. -/
theorem c10_primitive_input_returns_false (v : TSValue)
    (h : v = .null ∨ v = .undef ∨ (∃ s, v = .str s) ∨ (∃ n, v = .num n) ∨
      (∃ b, v = .bool b)) :
    isFileAttributeValue v = .ok false := by
  rcases h with rfl | rfl | ⟨s, rfl⟩ | ⟨n, rfl⟩ | ⟨b, rfl⟩ <;> rfl

/-- C10 witness: the null input is in the stated class and the guard
returns false on it. -/
theorem c10_witness :
    (TSValue.null = .null ∨ TSValue.null = .undef ∨ (∃ s, TSValue.null = .str s) ∨
        (∃ n, TSValue.null = .num n) ∨ (∃ b, TSValue.null = .bool b)) ∧
      isFileAttributeValue .null = .ok false :=
  ⟨Or.inl rfl, c10_primitive_input_returns_false .null (Or.inl rfl)⟩

theorem control_tag_mem (c : Control) : controlTypeTag c ∈ controlTags := by
  cases c <;> simp [controlTypeTag, controlTags]

/-- C2 counterexample: no fourteen-element tag set can contain the tag of
every design-time Control, because the union achieves fifteen pairwise
distinct tags. -/
theorem c2_counterexample :
    ¬ ∃ tags : Finset String, tags.card = 14 ∧ ∀ c : Control, controlTypeTag c ∈ tags := by
  rintro ⟨S, hcard, hall⟩
  have h01 := hall (.boolean sampleBooleanControl)
  have h02 := hall (.currency sampleCurrencyControl)
  have h03 := hall (.date sampleDateControl)
  have h04 := hall (.time sampleTimeControl)
  have h05 := hall (.datetime sampleDateTimeControl)
  have h06 := hall (.options sampleOptionsControl)
  have h07 := hall (.file sampleFileControl)
  have h08 := hall (.image sampleImageControl)
  have h09 := hall (.number_of_instances sampleNumberOfInstancesControl)
  have h10 := hall (.text sampleTextControl)
  have h11 := hall (.typography sampleTypographyControl)
  have h12 := hall (.entity sampleEntityControl)
  have h13 := hall (.repeating_container sampleRepeatingContainerControl)
  have h14 := hall (.certainty_container sampleCertaintyContainerControl)
  have h15 := hall (.switch_container sampleSwitchContainerControl)
  simp only [controlTypeTag] at h01 h02 h03 h04 h05 h06 h07 h08 h09 h10 h11 h12 h13 h14 h15
  have hsub : ({"boolean", "currency", "date", "time", "datetime", "options", "file",
      "image", "number_of_instances", "text", "typography", "entity",
      "repeating_container", "certainty_container", "switch_container"} :
        Finset String) ⊆ S := by
    intro x hx
    simp only [Finset.mem_insert, Finset.mem_singleton] at hx
    rcases hx with rfl | rfl | rfl | rfl | rfl | rfl | rfl | rfl | rfl | rfl | rfl | rfl |
      rfl | rfl | rfl <;> assumption
  have hle := Finset.card_le_card hsub
  have hc15 : ({"boolean", "currency", "date", "time", "datetime", "options", "file",
      "image", "number_of_instances", "text", "typography", "entity",
      "repeating_container", "certainty_container", "switch_container"} :
        Finset String).card = 15 := by decide
  omega

/-- C2 (amended: the fixed tag set has fifteen members, not fourteen):
every member of the design-time Control union carries one of the fifteen
pairwise distinct tags, and a value whose tag lies outside that set is the
tag of no Control. -/
theorem c2_control_tags :
    controlTags.Nodup ∧ controlTags.length = 15 ∧
      (∀ c : Control, controlTypeTag c ∈ controlTags) ∧
      (∀ s : String, s ∉ controlTags → ∀ c : Control, controlTypeTag c ≠ s) := by
  refine ⟨by decide, by decide, control_tag_mem, ?_⟩
  intro s hs c hc
  exact hs (hc ▸ control_tag_mem c)

mutual
theorem countCurrentStep_eq_flatten (s : Step) :
    countCurrentStep s = ((flattenStep s).filter Step.current).length := by
  cases s with
  | mk i t cx c co v sk vi st =>
    cases st with
    | none =>
      cases c <;> simp [countCurrentStep, flattenStep, List.filter, Step.current]
    | some l =>
      have ih := countCurrentSteps_eq_flatten l
      cases c <;>
        (simp [countCurrentStep, flattenStep, List.filter_cons, Step.current, ih]; try omega)

theorem countCurrentSteps_eq_flatten (l : List Step) :
    countCurrentSteps l = ((flattenSteps l).filter Step.current).length := by
  cases l with
  | nil => simp [countCurrentSteps, flattenSteps]
  | cons s r =>
    have ih1 := countCurrentStep_eq_flatten s
    have ih2 := countCurrentSteps_eq_flatten r
    simp [countCurrentSteps, flattenSteps, List.filter_append, ih1, ih2]
end

/-- C3: for every Session satisfying the documented engine invariant that
one step of the whole tree is marked current, the flattened steps tree,
nested steps arrays included at any depth, holds exactly one step with
current true. -/
theorem c3_unique_current_step (s : Session)
    (h : sessionHasUniqueCurrent s = true) :
    ((flattenSteps s.steps).filter Step.current).length = 1 := by
  rw [sessionHasUniqueCurrent] at h
  simp only [beq_iff_eq] at h
  have heq := countCurrentSteps_eq_flatten s.steps
  omega

/-- C3 witness: the sample session, one nested current step, satisfies the
invariant and the flattened tree holds exactly one current step. -/
theorem c3_witness :
    sessionHasUniqueCurrent sampleSession = true ∧
      ((flattenSteps sampleSession.steps).filter Step.current).length = 1 :=
  ⟨rfl, c3_unique_current_step sampleSession rfl⟩

/-- C4 counterexample: an options-typed member of the RenderableControl
family carrying enum_id is admitted by the shape, so the field is not
absent from every hydrated options control: the runtime family reuses the
design-time OptionsControl interface, whose enum_id is optional. -/
theorem c4_counterexample :
    renderableControlTypeTag (.options enumIdOptionsControl none none) = "options" ∧
      "enum_id" ∈ renderableControlKeys (.options enumIdOptionsControl none none) :=
  ⟨rfl, by decide⟩

/-- C4 (amended): the hydrated options control shape is the very
OptionsControl of design time, so its wire keys coincide with the
design-time ones whenever no loading or dynamicAttributes field is set,
and enum_id appears on either exactly when the optional field is set;
its runtime absence is a documented server contract, not a structural
guarantee of the RenderableControl family. -/
theorem c4_options_shape_shared (oc : OptionsControl) :
    renderableControlKeys (.options oc none none) = controlKeys (.options oc) ∧
      ("enum_id" ∈ controlKeys (.options oc) ↔ oc.enum_id.isSome = true) := by
  constructor
  · simp [renderableControlKeys, controlKeys, optKey]
  · simp [controlKeys, optionsControlKeys, mem_optKey_iff, mem_flagKey_iff]

/-- C5 counterexample: the design-time RepeatingContainerControl interface
itself declares the runtime-computed isFirst and isLast flags as optional
fields, so a design-time Control value can carry both. -/
theorem c5_counterexample :
    controlTypeTag (.repeating_container flaggedRepeatingContainerControl) =
        "repeating_container" ∧
      "isFirst" ∈ controlKeys (.repeating_container flaggedRepeatingContainerControl) ∧
      "isLast" ∈ controlKeys (.repeating_container flaggedRepeatingContainerControl) :=
  ⟨rfl, by decide, by decide⟩

/-- C5 (amended: isFirst and isLast excepted, since the design-time
repeating container declares them): the instances, branch, loading and
dynamicAttributes fields appear on no value of the design-time Control
family; they are declared only in the hydrated RenderableControl family. -/
theorem c5_design_controls_lack_runtime_fields (c : Control) :
    "instances" ∉ controlKeys c ∧ "branch" ∉ controlKeys c ∧
      "loading" ∉ controlKeys c ∧ "dynamicAttributes" ∉ controlKeys c := by
  cases c <;> refine ⟨?_, ?_, ?_, ?_⟩ <;>
    simp [controlKeys, booleanControlKeys, currencyControlKeys, dateControlKeys,
      timeControlKeys, dateTimeControlKeys, optionsControlKeys, fileControlKeys,
      imageControlKeys, numberOfInstancesControlKeys, textControlKeys,
      typographyControlKeys, entityControlKeys, repeatingContainerControlKeys,
      certaintyContainerControlKeys, switchContainerControlKeys,
      mem_optKey_iff, mem_flagKey_iff]

mutual
theorem conditionExpression_wf_values (e : ConditionExpression)
    (h : conditionExpressionWellFormed e = true) :
    ∀ cv ∈ conditionExpressionValues e, conditionValueExactlyOne cv = true := by
  cases e with
  | mk t elems =>
    simp only [conditionExpressionWellFormed] at h
    simpa [conditionExpressionValues] using conditionElements_wf_values elems h

theorem conditionElements_wf_values (l : List (ConditionValue ⊕ ConditionExpression))
    (h : conditionElementsWellFormed l = true) :
    ∀ cv ∈ conditionElementsValues l, conditionValueExactlyOne cv = true := by
  cases l with
  | nil => simp [conditionElementsValues]
  | cons x rest =>
    cases x with
    | inl cv =>
      simp only [conditionElementsWellFormed, Bool.and_eq_true] at h
      intro c hc
      simp only [conditionElementsValues, List.mem_cons] at hc
      rcases hc with rfl | hc
      · exact h.1
      · exact conditionElements_wf_values rest h.2 c hc
    | inr e =>
      simp only [conditionElementsWellFormed, Bool.and_eq_true] at h
      intro c hc
      simp only [conditionElementsValues, List.mem_append] at hc
      rcases hc with hc | hc
      · exact conditionExpression_wf_values e h.1 c hc
      · exact conditionElements_wf_values rest h.2 c hc
end

/-- C7: in a well-formed ConditionExpression, every ConditionValue node, at
any depth, carries exactly one of the value and attributeId fields: one is
present and the other absent, never both, never neither. -/
theorem c7_condition_value_exactly_one (e : ConditionExpression)
    (h : conditionExpressionWellFormed e = true) :
    ∀ cv ∈ conditionExpressionValues e,
      (cv.value.isSome = true ∧ cv.attributeId.isSome = false) ∨
        (cv.value.isSome = false ∧ cv.attributeId.isSome = true) := by
  intro cv hcv
  have hx := conditionExpression_wf_values e h cv hcv
  rcases cv with ⟨k, hv, ha⟩
  cases hv <;> cases ha <;> simp_all [conditionValueExactlyOne]

/-- C7 witness: the nested and-of-equals example is well formed, and each
of its two leaves carries exactly one of the two fields. -/
theorem c7_witness :
    conditionExpressionWellFormed sampleConditionExpression = true ∧
      ∀ cv ∈ conditionExpressionValues sampleConditionExpression,
        (cv.value.isSome = true ∧ cv.attributeId.isSome = false) ∨
          (cv.value.isSome = false ∧ cv.attributeId.isSome = true) :=
  ⟨rfl, c7_condition_value_exactly_one sampleConditionExpression rfl⟩

end TypesInterview
